import Mathlib

/-
Verification of the QCoro local-socket awaitable layer
(src/qcoro/qcorolocalsocket.h) against its specification.

The awaitables in qcorolocalsocket.h derive from WaitOperationBase
(impl/waitoperationbase.h) and QCoroIODevice::ReadOperation
(qcoroiodevice.h); those two headers are not part of the sources at hand,
so their behaviour is modelled from the specification and every such
definition is marked `Modelled from the spec:` in its doc comment.
Everything else is translated directly from qcorolocalsocket.h.
-/

/-- QLocalSocket::LocalSocketState: the discrete connection states of the
watched socket (Unconnected, Connecting, Connected, Closing). -/
inductive LocalSocketState where
  | UnconnectedState
  | ConnectingState
  | ConnectedState
  | ClosingState
deriving DecidableEq, Repr

/-- A non-blocking connect request issued to the underlying QLocalSocket:
optional server name plus the QIODevice open-mode flags. -/
structure ConnectRequest where
  serverName : Option String
  openMode : Nat
deriving DecidableEq, Repr

/-- Model of the externally owned QLocalSocket: its connection state, the
bytes currently available in its read buffer, and the log of connect
requests issued to it (the observable effect of QLocalSocket::connectToServer,
which is an external Qt call). -/
structure LocalSocket where
  state : LocalSocketState
  buffer : List Nat
  requests : List ConnectRequest
deriving DecidableEq, Repr

/-- Modelled from the spec: the runtime state of a WaitOperationBase-derived
awaitable during one suspend/resume episode (impl/waitoperationbase.h is not
among the sources). `connActive` is the primary-event subscription (mConn),
`timerActive` says whether the timeout timer is armed, `completed` is the
idempotency guard marking that the operation already resumed, `resumeCount`
counts continuation invocations, `timedOut` records a timeout outcome. -/
structure WaitOperationState where
  timeoutMsecs : Int
  connActive : Bool
  timerActive : Bool
  completed : Bool
  resumeCount : Nat
  timedOut : Bool
deriving DecidableEq, Repr

/-- Modelled from the spec: WaitOperationBase construction binds the timeout;
no subscription exists and no timer is armed before suspension. -/
def WaitOperationState.init (timeoutMsecs : Int) : WaitOperationState :=
  { timeoutMsecs := timeoutMsecs, connActive := false, timerActive := false,
    completed := false, resumeCount := 0, timedOut := false }

/-- Modelled from the spec: `resume(continuation)` tears down every
outstanding subscription (event and timeout), marks the operation completed
exactly once (idempotency guard against double-resume from a race between
the primary event and the timeout), then invokes the continuation. -/
def WaitOperationState.resume (s : WaitOperationState) : WaitOperationState :=
  if s.completed then s
  else { s with connActive := false, timerActive := false, completed := true,
                resumeCount := s.resumeCount + 1 }

/-- Observable actions of an awaitable entering suspension, in program
order: subscribing to the primary completion event, subscribing to the
auxiliary state-change event, arming the timeout timer. -/
inductive SuspendAction where
  | subscribePrimary
  | subscribeState
  | armTimer
deriving DecidableEq, Repr

/-- Modelled from the spec: `startTimeoutTimer` arms the timeout timer; a
timeout of 0 or negative disables it (wait indefinitely, not an error).
Returns the action trace together with the updated state. -/
def WaitOperationState.startTimeoutTimer (s : WaitOperationState) :
    List SuspendAction × WaitOperationState :=
  if 0 < s.timeoutMsecs then ([SuspendAction.armTimer], { s with timerActive := true })
  else ([], s)

/-- WaitForConnectedOperation from qcorolocalsocket.h: the QPointer to the
watched socket (`mObj`, none when the socket is null or destroyed) plus the
WaitOperationBase state. -/
structure WaitForConnectedOperation where
  mObj : Option LocalSocket
  base : WaitOperationState
deriving DecidableEq, Repr

/-- WaitForConnectedOperation constructor (qcorolocalsocket.h line 24); the
C++ default for timeout_msecs is 30000, written explicitly at call sites
here. -/
def WaitForConnectedOperation.mk' (socket : Option LocalSocket) (timeoutMsecs : Int) :
    WaitForConnectedOperation :=
  { mObj := socket, base := WaitOperationState.init timeoutMsecs }

/-- WaitForConnectedOperation::await_ready (qcorolocalsocket.h lines 27-29):
true iff the socket pointer is null or the socket is already in
ConnectedState. -/
def WaitForConnectedOperation.await_ready (w : WaitForConnectedOperation) : Bool :=
  match w.mObj with
  | none => true
  | some s => s.state == LocalSocketState.ConnectedState

/-- WaitForConnectedOperation::await_suspend (qcorolocalsocket.h lines
31-50): connect to the stateChanged signal, then startTimeoutTimer. The
returned trace records the actions in program order. -/
def WaitForConnectedOperation.await_suspend (w : WaitForConnectedOperation) :
    List SuspendAction × WaitForConnectedOperation :=
  let s1 := { w.base with connActive := true }
  let timer := s1.startTimeoutTimer
  (SuspendAction.subscribePrimary :: timer.1, { w with base := timer.2 })

/-- The coroutine machinery entering a co_await on the operation: when
await_ready reports true the coroutine never suspends (await_suspend is not
called, no subscription is made and no timer is started); otherwise
await_suspend runs. -/
def WaitForConnectedOperation.awaitEntry (w : WaitForConnectedOperation) :
    List SuspendAction × WaitForConnectedOperation :=
  if w.await_ready then ([], w) else w.await_suspend

/-- Events the reactor can deliver to a suspended WaitForConnectedOperation:
a stateChanged notification carrying the socket's new state, or the timeout
timer firing. -/
inductive ConnWaitEvent where
  | stateChanged (newState : LocalSocketState)
  | timerFired
deriving DecidableEq, Repr

/-- The stateChanged handler installed by WaitForConnectedOperation::await_suspend
(qcorolocalsocket.h lines 33-47): Unconnected and Connecting are not resume
triggers ("Almost there..."); Closing and Connected resume immediately. -/
def WaitForConnectedOperation.onStateChanged (w : WaitForConnectedOperation)
    (newState : LocalSocketState) : WaitForConnectedOperation :=
  match newState with
  | LocalSocketState.UnconnectedState => w
  | LocalSocketState.ConnectingState => w
  | LocalSocketState.ClosingState => { w with base := w.base.resume }
  | LocalSocketState.ConnectedState => { w with base := w.base.resume }

/-- Modelled from the spec: the timeout timer's callback records the timeout
and resumes; it can only fire while the timer is armed. Delivery of a
stateChanged event first updates the externally owned socket's state, then
runs the handler only while the subscription is live (QObject::disconnect in
resume prevents later deliveries). -/
def WaitForConnectedOperation.deliver (w : WaitForConnectedOperation)
    (e : ConnWaitEvent) : WaitForConnectedOperation :=
  match e with
  | ConnWaitEvent.stateChanged ns =>
      let w1 := { w with mObj := w.mObj.map (fun (s : LocalSocket) => { s with state := ns }) }
      if w1.base.connActive then w1.onStateChanged ns else w1
  | ConnWaitEvent.timerFired =>
      if w.base.timerActive then
        { w with base := { w.base with timedOut := true }.resume }
      else w

/-- Delivery of a whole sequence of reactor events, in order. -/
def WaitForConnectedOperation.deliverAll (w : WaitForConnectedOperation)
    (es : List ConnWaitEvent) : WaitForConnectedOperation :=
  es.foldl WaitForConnectedOperation.deliver w

/-- WaitForDisconnectedOperation from qcorolocalsocket.h lines 54-69: the
QPointer to the watched socket plus the WaitOperationBase state. Its
constructor (line 56) has no default timeout. -/
structure WaitForDisconnectedOperation where
  mObj : Option LocalSocket
  base : WaitOperationState
deriving DecidableEq, Repr

/-- WaitForDisconnectedOperation constructor (qcorolocalsocket.h line 56). -/
def WaitForDisconnectedOperation.mk' (socket : Option LocalSocket) (timeoutMsecs : Int) :
    WaitForDisconnectedOperation :=
  { mObj := socket, base := WaitOperationState.init timeoutMsecs }

/-- WaitForDisconnectedOperation::await_ready (qcorolocalsocket.h lines
59-61): true iff the socket pointer is null or the socket is already in
UnconnectedState. -/
def WaitForDisconnectedOperation.await_ready (w : WaitForDisconnectedOperation) : Bool :=
  match w.mObj with
  | none => true
  | some s => s.state == LocalSocketState.UnconnectedState

/-- WaitForDisconnectedOperation::await_suspend (qcorolocalsocket.h lines
63-68): connect to the disconnected signal, then startTimeoutTimer. -/
def WaitForDisconnectedOperation.await_suspend (w : WaitForDisconnectedOperation) :
    List SuspendAction × WaitForDisconnectedOperation :=
  let s1 := { w.base with connActive := true }
  let timer := s1.startTimeoutTimer
  (SuspendAction.subscribePrimary :: timer.1, { w with base := timer.2 })

/-- The coroutine machinery entering a co_await on a
WaitForDisconnectedOperation. -/
def WaitForDisconnectedOperation.awaitEntry (w : WaitForDisconnectedOperation) :
    List SuspendAction × WaitForDisconnectedOperation :=
  if w.await_ready then ([], w) else w.await_suspend

/-- Events the reactor can deliver to a suspended
WaitForDisconnectedOperation: the disconnected signal or the timeout timer
firing. -/
inductive DisconnWaitEvent where
  | disconnected
  | timerFired
deriving DecidableEq, Repr

/-- Delivery of one event to a suspended WaitForDisconnectedOperation. The
disconnected handler (qcorolocalsocket.h line 66) resumes unconditionally;
the timer callback is modelled from the spec as for
WaitForConnectedOperation. Handlers run only while their subscription is
live. -/
def WaitForDisconnectedOperation.deliver (w : WaitForDisconnectedOperation)
    (e : DisconnWaitEvent) : WaitForDisconnectedOperation :=
  match e with
  | DisconnWaitEvent.disconnected =>
      if w.base.connActive then { w with base := w.base.resume } else w
  | DisconnWaitEvent.timerFired =>
      if w.base.timerActive then
        { w with base := { w.base with timedOut := true }.resume }
      else w

/-- Delivery of a whole sequence of reactor events, in order. -/
def WaitForDisconnectedOperation.deliverAll (w : WaitForDisconnectedOperation)
    (es : List DisconnWaitEvent) : WaitForDisconnectedOperation :=
  es.foldl WaitForDisconnectedOperation.deliver w

/-- The read request a ReadOperation carries, mirroring the three lambdas of
qcorolocalsocket.h lines 157-169: readAll, read(maxSize), readLine(maxSize). -/
inductive ReadKind where
  | readAll
  | readSome (maxSize : Int)
  | readLine (maxSize : Int)
deriving DecidableEq, Repr

/-- QIODevice::readLine reads bytes up to and including the first newline
(byte 10); external Qt behaviour, modelled directly. -/
def takeLine : List Nat → List Nat
  | [] => []
  | b :: rest => if b == 10 then [b] else b :: takeLine rest

/-- Modelled from the spec: on resume "the requested operation (read N bytes
/ read line / read all) is executed against the now-ready device". The
device reads are external Qt calls (QIODevice::readAll, read, readLine)
modelled on the buffer. -/
def runRead (kind : ReadKind) (dev : LocalSocket) : List Nat :=
  match kind with
  | ReadKind.readAll => dev.buffer
  | ReadKind.readSome maxSize => dev.buffer.take maxSize.toNat
  | ReadKind.readLine maxSize =>
      if maxSize ≤ 0 then takeLine dev.buffer
      else (takeLine dev.buffer).take maxSize.toNat

/-- QCoroLocalSocket::ReadOperation (qcorolocalsocket.h lines 71-100) plus
the modelled state of its base class QCoroIODevice::ReadOperation
(qcoroiodevice.h is not among the sources). `mDevice` is the QPointer to the
device, `kind` the read request, `dataConn` the base class readyRead
subscription (mConn), `stateConn` the derived class stateChanged
subscription (mStateConn), `completed`/`resumeCount` track the continuation,
`result` the value stored for await_resume. -/
structure ReadOperation where
  mDevice : Option LocalSocket
  kind : ReadKind
  dataConn : Bool
  stateConn : Bool
  completed : Bool
  resumeCount : Nat
  result : Option (List Nat)
deriving DecidableEq, Repr

/-- A freshly constructed ReadOperation: no subscriptions, not resumed, no
stored result. -/
def ReadOperation.mk' (dev : Option LocalSocket) (kind : ReadKind) : ReadOperation :=
  { mDevice := dev, kind := kind, dataConn := false, stateConn := false,
    completed := false, resumeCount := 0, result := none }

/-- Modelled from the spec: QCoroIODevice::ReadOperation::await_ready — true
when data is already available in the device's buffer; an invalid (null)
device is treated as ready per the watched-object lifetime invariant. -/
def ReadOperation.baseAwaitReady (r : ReadOperation) : Bool :=
  match r.mDevice with
  | none => true
  | some dev => decide (0 < dev.buffer.length)

/-- QCoroLocalSocket::ReadOperation::await_ready (qcorolocalsocket.h lines
75-79): the base ready-check OR the socket already in UnconnectedState. The
C++ short-circuits, so the state query is only reached with a valid device
(the none branch of the second disjunct is unreachable). -/
def ReadOperation.await_ready (r : ReadOperation) : Bool :=
  r.baseAwaitReady ||
    (match r.mDevice with
     | none => false
     | some dev => dev.state == LocalSocketState.UnconnectedState)

/-- QCoroLocalSocket::ReadOperation::finish (qcorolocalsocket.h lines
94-97): disconnect mStateConn, then the base class finish, which is
modelled from the spec — it tears down the readyRead subscription, executes
the requested read against the now-ready device, stores the result and
resumes the continuation. -/
def ReadOperation.finish (r : ReadOperation) : ReadOperation :=
  { r with stateConn := false, dataConn := false,
           result := some (match r.mDevice with
                           | none => []
                           | some dev => runRead r.kind dev),
           completed := true,
           resumeCount := r.resumeCount + 1 }

/-- QCoroLocalSocket::ReadOperation::await_suspend (qcorolocalsocket.h lines
81-91): the base class await_suspend (modelled from the spec: subscribe to
readyRead), then connect the stateChanged handler. -/
def ReadOperation.await_suspend (r : ReadOperation) : ReadOperation :=
  { r with dataConn := true, stateConn := true }

/-- Modelled from the spec: result extraction at resume. When the operation
finished while suspended the stored result is returned; on the
immediately-ready path the read runs against the device now. -/
def ReadOperation.await_resume (r : ReadOperation) : List Nat :=
  match r.result with
  | some res => res
  | none =>
      match r.mDevice with
      | none => []
      | some dev => runRead r.kind dev

/-- Events the reactor can deliver to a suspended ReadOperation: readyRead
(carrying the newly arrived bytes appended to the device buffer) or
stateChanged (carrying the device's new state). -/
inductive ReadEvent where
  | readyRead (newData : List Nat)
  | stateChanged (newState : LocalSocketState)
deriving DecidableEq, Repr

/-- The external effect of a reactor event on the watched device, applied
whether or not any subscription is live. -/
def ReadOperation.applyEvent (r : ReadOperation) (e : ReadEvent) : ReadOperation :=
  match e with
  | ReadEvent.readyRead newData =>
      { r with mDevice :=
          r.mDevice.map (fun (d : LocalSocket) => { d with buffer := d.buffer ++ newData }) }
  | ReadEvent.stateChanged ns =>
      { r with mDevice :=
          r.mDevice.map (fun (d : LocalSocket) => { d with state := ns }) }

/-- Delivery of one event to a ReadOperation. The readyRead handler
(modelled base class) calls finish, which C++ virtual dispatch routes to the
derived finish. The stateChanged handler (qcorolocalsocket.h lines 85-90)
re-queries the device state and calls finish only on UnconnectedState.
Handlers run only while their subscription is live. -/
def ReadOperation.deliver (r : ReadOperation) (e : ReadEvent) : ReadOperation :=
  let r1 := r.applyEvent e
  match e with
  | ReadEvent.readyRead _ => if r1.dataConn then r1.finish else r1
  | ReadEvent.stateChanged _ =>
      if r1.stateConn then
        match r1.mDevice with
        | some dev =>
            if dev.state == LocalSocketState.UnconnectedState then r1.finish else r1
        | none => r1
      else r1

/-- Delivery of a whole sequence of reactor events to a ReadOperation. -/
def ReadOperation.deliverAll (r : ReadOperation) (es : List ReadEvent) : ReadOperation :=
  es.foldl ReadOperation.deliver r

/-- QCoroLocalSocket (qcorolocalsocket.h line 20): the co_awaitable wrapper,
holding the QPointer to the wrapped QLocalSocket through its QCoroIODevice
base (mDevice). -/
structure QCoroLocalSocket where
  mDevice : Option LocalSocket
deriving DecidableEq, Repr

/-- QCoroLocalSocket::waitForConnected(int) (qcorolocalsocket.h lines
106-109); the C++ default argument is 30000, applied by
waitForConnectedDefault below. -/
def QCoroLocalSocket.waitForConnected (self : QCoroLocalSocket) (timeoutMsecs : Int) :
    WaitForConnectedOperation :=
  WaitForConnectedOperation.mk' self.mDevice timeoutMsecs

/-- QCoroLocalSocket::waitForConnected() called with its default argument
timeout_msecs = 30'000 (qcorolocalsocket.h line 106). -/
def QCoroLocalSocket.waitForConnectedDefault (self : QCoroLocalSocket) :
    WaitForConnectedOperation :=
  self.waitForConnected 30000

/-- QCoroLocalSocket::waitForDisconnected(int) (qcorolocalsocket.h lines
121-124). -/
def QCoroLocalSocket.waitForDisconnected (self : QCoroLocalSocket) (timeoutMsecs : Int) :
    WaitForDisconnectedOperation :=
  WaitForDisconnectedOperation.mk' self.mDevice timeoutMsecs

/-- QCoroLocalSocket::waitForDisconnected() called with its default argument
timeout_msecs = 30'000 (qcorolocalsocket.h line 121). -/
def QCoroLocalSocket.waitForDisconnectedDefault (self : QCoroLocalSocket) :
    WaitForDisconnectedOperation :=
  self.waitForDisconnected 30000

/-- static_cast<int> applied to the std::chrono::milliseconds tick count: a
conversion to 32-bit two's complement, wrapping values outside
[-2^31, 2^31). -/
def intCast32 (n : Int) : Int := (n + 2 ^ 31) % 2 ^ 32 - 2 ^ 31

/-- QCoroLocalSocket::waitForConnected(std::chrono::milliseconds)
(qcorolocalsocket.h lines 116-118): delegates to the int overload with
static_cast<int>(timeout.count()). The duration is represented by its
millisecond count. -/
def QCoroLocalSocket.waitForConnectedChrono (self : QCoroLocalSocket) (timeoutMs : Int) :
    WaitForConnectedOperation :=
  self.waitForConnected (intCast32 timeoutMs)

/-- QCoroLocalSocket::waitForDisconnected(std::chrono::milliseconds)
(qcorolocalsocket.h lines 131-133). -/
def QCoroLocalSocket.waitForDisconnectedChrono (self : QCoroLocalSocket) (timeoutMs : Int) :
    WaitForDisconnectedOperation :=
  self.waitForDisconnected (intCast32 timeoutMs)

/-- QLocalSocket::connectToServer — the underlying non-blocking Qt request,
an external call modelled as appending the request to the socket's request
log. -/
def LocalSocket.connectToServerReq (s : LocalSocket) (name : Option String)
    (openMode : Nat) : LocalSocket :=
  { s with requests := s.requests ++ [{ serverName := name, openMode := openMode }] }

/-- QIODevice::ReadWrite, the default open mode of both connectToServer
overloads (value of the Qt flag combination ReadOnly | WriteOnly). -/
def qioReadWrite : Nat := 3

/-- QCoroLocalSocket::connectToServer(openMode) (qcorolocalsocket.h lines
140-143): synchronously issue QLocalSocket::connectToServer(openMode) on
the wrapped socket, then return waitForConnected() with its default
timeout. Returns the updated wrapper together with the awaitable. -/
def QCoroLocalSocket.connectToServer (self : QCoroLocalSocket) (openMode : Nat) :
    QCoroLocalSocket × WaitForConnectedOperation :=
  let self2 : QCoroLocalSocket :=
    { mDevice := self.mDevice.map (fun (d : LocalSocket) => d.connectToServerReq none openMode) }
  (self2, self2.waitForConnectedDefault)

/-- QCoroLocalSocket::connectToServer(name, openMode) (qcorolocalsocket.h
lines 150-154). -/
def QCoroLocalSocket.connectToServerNamed (self : QCoroLocalSocket) (name : String)
    (openMode : Nat) : QCoroLocalSocket × WaitForConnectedOperation :=
  let self2 : QCoroLocalSocket :=
    { mDevice :=
        self.mDevice.map (fun (d : LocalSocket) => d.connectToServerReq (some name) openMode) }
  (self2, self2.waitForConnectedDefault)

/-- The composition stated by the spec for the composite operation: issue
the underlying connectToServer request with no suspension point, then
return the wait-for-connected awaitable (with the default 30000 ms
timeout) over the socket carrying that request. Written from the spec's
words, to be compared with QCoroLocalSocket.connectToServer. -/
def connectThenWaitSpec (self : QCoroLocalSocket) (name : Option String)
    (openMode : Nat) : QCoroLocalSocket × WaitForConnectedOperation :=
  let requested : QCoroLocalSocket :=
    { mDevice :=
        self.mDevice.map (fun (d : LocalSocket) => d.connectToServerReq name openMode) }
  (requested, requested.waitForConnected 30000)

/-- QCoroLocalSocket::readAll (qcorolocalsocket.h lines 157-159). -/
def QCoroLocalSocket.readAll (self : QCoroLocalSocket) : ReadOperation :=
  ReadOperation.mk' self.mDevice ReadKind.readAll

/-- QCoroLocalSocket::read(maxSize) (qcorolocalsocket.h lines 162-164). -/
def QCoroLocalSocket.readSome (self : QCoroLocalSocket) (maxSize : Int) : ReadOperation :=
  ReadOperation.mk' self.mDevice (ReadKind.readSome maxSize)

/-- QCoroLocalSocket::readLine(maxSize) (qcorolocalsocket.h lines 167-169);
the C++ default for maxSize is 0. -/
def QCoroLocalSocket.readLineOp (self : QCoroLocalSocket) (maxSize : Int) : ReadOperation :=
  ReadOperation.mk' self.mDevice (ReadKind.readLine maxSize)

/-- A WaitForConnectedOperation that has resumed exactly once with full
teardown: the continuation was invoked once, both the event subscription and
the timeout timer are torn down, and the operation is marked completed. -/
def connResumedOnce (w : WaitForConnectedOperation) : Prop :=
  w.base.resumeCount = 1 ∧ w.base.connActive = false ∧ w.base.timerActive = false
    ∧ w.base.completed = true

/-- A WaitForDisconnectedOperation that has resumed exactly once with full
teardown. -/
def disconnResumedOnce (w : WaitForDisconnectedOperation) : Prop :=
  w.base.resumeCount = 1 ∧ w.base.connActive = false ∧ w.base.timerActive = false
    ∧ w.base.completed = true

/-- Delivery invariant for a suspended WaitForConnectedOperation whose timer
armed-flag at suspension was `t`: either still waiting (never resumed,
primary subscription live, timer as at suspension) or already resumed
exactly once with full teardown. -/
def connInv (t : Bool) (w : WaitForConnectedOperation) : Prop :=
  (w.base.resumeCount = 0 ∧ w.base.completed = false ∧ w.base.connActive = true
    ∧ w.base.timerActive = t)
  ∨ connResumedOnce w

/-- Delivery invariant for a suspended WaitForDisconnectedOperation. -/
def disconnInv (t : Bool) (w : WaitForDisconnectedOperation) : Prop :=
  (w.base.resumeCount = 0 ∧ w.base.completed = false ∧ w.base.connActive = true
    ∧ w.base.timerActive = t)
  ∨ disconnResumedOnce w

/-- Events that must resume a suspended WaitForConnectedOperation: a
Connected or Closing state change, or the timer firing while armed. -/
def connTrigger (t : Bool) (e : ConnWaitEvent) : Prop :=
  e = ConnWaitEvent.stateChanged LocalSocketState.ConnectedState
  ∨ e = ConnWaitEvent.stateChanged LocalSocketState.ClosingState
  ∨ (e = ConnWaitEvent.timerFired ∧ t = true)

/-- Events that must resume a suspended WaitForDisconnectedOperation: the
disconnected signal, or the timer firing while armed. -/
def disconnTrigger (t : Bool) (e : DisconnWaitEvent) : Prop :=
  e = DisconnWaitEvent.disconnected
  ∨ (e = DisconnWaitEvent.timerFired ∧ t = true)

/-- Concrete socket currently connecting, with an empty read buffer. -/
def sockConnecting : LocalSocket :=
  { state := LocalSocketState.ConnectingState, buffer := [], requests := [] }

/-- Concrete connected socket with an empty read buffer. -/
def sockConnectedEmpty : LocalSocket :=
  { state := LocalSocketState.ConnectedState, buffer := [], requests := [] }

/-- Concrete connected socket with two bytes buffered. -/
def sockConnectedBuf : LocalSocket :=
  { state := LocalSocketState.ConnectedState, buffer := [7, 8], requests := [] }

/-- Concrete unconnected socket with an empty read buffer. -/
def sockUnconnectedEmpty : LocalSocket :=
  { state := LocalSocketState.UnconnectedState, buffer := [], requests := [] }

/-- Wrapper over the connecting socket. -/
def qcoroSockConnecting : QCoroLocalSocket := { mDevice := some sockConnecting }

/-- A WaitForConnectedOperation suspended over the connecting socket with
the default 30000 ms timeout. -/
def connSuspendedExample : WaitForConnectedOperation :=
  ((qcoroSockConnecting.waitForConnectedDefault).await_suspend).2

/-- A WaitForDisconnectedOperation suspended over the connecting socket with
the default 30000 ms timeout. -/
def disconnSuspendedExample : WaitForDisconnectedOperation :=
  ((qcoroSockConnecting.waitForDisconnectedDefault).await_suspend).2

/-- A ReadOperation (readAll) suspended over a connected socket with no
buffered data. -/
def readSuspendedExample : ReadOperation :=
  ((QCoroLocalSocket.mk (some sockConnectedEmpty)).readAll).await_suspend

/-- A freshly constructed ReadOperation (readAll) over an
already-unconnected socket with no buffered data. -/
def readOnUnconnectedExample : ReadOperation :=
  (QCoroLocalSocket.mk (some sockUnconnectedEmpty)).readAll

lemma connResumedOnce_deliver (w : WaitForConnectedOperation) (e : ConnWaitEvent)
    (h : connResumedOnce w) : connResumedOnce (w.deliver e) := by
  obtain ⟨h1, h2, h3, h4⟩ := h
  cases e with
  | stateChanged ns =>
      simp only [WaitForConnectedOperation.deliver, h2]
      exact ⟨h1, h2, h3, h4⟩
  | timerFired =>
      simp only [WaitForConnectedOperation.deliver, h3]
      exact ⟨h1, h2, h3, h4⟩

lemma disconnResumedOnce_deliver (w : WaitForDisconnectedOperation) (e : DisconnWaitEvent)
    (h : disconnResumedOnce w) : disconnResumedOnce (w.deliver e) := by
  obtain ⟨h1, h2, h3, h4⟩ := h
  cases e with
  | disconnected =>
      simp only [WaitForDisconnectedOperation.deliver, h2]
      exact ⟨h1, h2, h3, h4⟩
  | timerFired =>
      simp only [WaitForDisconnectedOperation.deliver, h3]
      exact ⟨h1, h2, h3, h4⟩

lemma connInv_deliver (t : Bool) (w : WaitForConnectedOperation) (e : ConnWaitEvent)
    (h : connInv t w) : connInv t (w.deliver e) := by
  rcases h with ⟨h1, h2, h3, h4⟩ | hr
  · cases e with
    | stateChanged ns =>
        simp only [WaitForConnectedOperation.deliver, h3, if_true]
        cases ns <;>
          simp only [WaitForConnectedOperation.onStateChanged, WaitOperationState.resume, h2,
            Bool.false_eq_true, if_false, connInv, connResumedOnce, h1, h2, h3, h4] <;>
          tauto
    | timerFired =>
        cases t with
        | false =>
            simp only [WaitForConnectedOperation.deliver, h4, Bool.false_eq_true, if_false]
            exact Or.inl ⟨h1, h2, h3, h4⟩
        | true =>
            simp only [WaitForConnectedOperation.deliver, h4, if_true,
              WaitOperationState.resume, h2, Bool.false_eq_true, if_false]
            exact Or.inr ⟨by simp [h1], rfl, rfl, rfl⟩
  · exact Or.inr (connResumedOnce_deliver w e hr)

lemma disconnInv_deliver (t : Bool) (w : WaitForDisconnectedOperation) (e : DisconnWaitEvent)
    (h : disconnInv t w) : disconnInv t (w.deliver e) := by
  rcases h with ⟨h1, h2, h3, h4⟩ | hr
  · cases e with
    | disconnected =>
        simp only [WaitForDisconnectedOperation.deliver, h3, if_true,
          WaitOperationState.resume, h2, Bool.false_eq_true, if_false]
        exact Or.inr ⟨by simp [h1], rfl, rfl, rfl⟩
    | timerFired =>
        cases t with
        | false =>
            simp only [WaitForDisconnectedOperation.deliver, h4, Bool.false_eq_true, if_false]
            exact Or.inl ⟨h1, h2, h3, h4⟩
        | true =>
            simp only [WaitForDisconnectedOperation.deliver, h4, if_true,
              WaitOperationState.resume, h2, Bool.false_eq_true, if_false]
            exact Or.inr ⟨by simp [h1], rfl, rfl, rfl⟩
  · exact Or.inr (disconnResumedOnce_deliver w e hr)

lemma connInv_deliver_trigger (t : Bool) (w : WaitForConnectedOperation) (e : ConnWaitEvent)
    (h : connInv t w) (he : connTrigger t e) : connResumedOnce (w.deliver e) := by
  rcases h with ⟨h1, h2, h3, h4⟩ | hr
  · rcases he with rfl | rfl | ⟨rfl, rfl⟩
    · simp only [WaitForConnectedOperation.deliver, h3, if_true,
        WaitForConnectedOperation.onStateChanged, WaitOperationState.resume, h2,
        Bool.false_eq_true, if_false]
      exact ⟨by simp [h1], rfl, rfl, rfl⟩
    · simp only [WaitForConnectedOperation.deliver, h3, if_true,
        WaitForConnectedOperation.onStateChanged, WaitOperationState.resume, h2,
        Bool.false_eq_true, if_false]
      exact ⟨by simp [h1], rfl, rfl, rfl⟩
    · simp only [WaitForConnectedOperation.deliver, h4, if_true,
        WaitOperationState.resume, h2, Bool.false_eq_true, if_false]
      exact ⟨by simp [h1], rfl, rfl, rfl⟩
  · exact connResumedOnce_deliver w e hr

lemma disconnInv_deliver_trigger (t : Bool) (w : WaitForDisconnectedOperation)
    (e : DisconnWaitEvent) (h : disconnInv t w) (he : disconnTrigger t e) :
    disconnResumedOnce (w.deliver e) := by
  rcases h with ⟨h1, h2, h3, h4⟩ | hr
  · rcases he with rfl | ⟨rfl, rfl⟩
    · simp only [WaitForDisconnectedOperation.deliver, h3, if_true,
        WaitOperationState.resume, h2, Bool.false_eq_true, if_false]
      exact ⟨by simp [h1], rfl, rfl, rfl⟩
    · simp only [WaitForDisconnectedOperation.deliver, h4, if_true,
        WaitOperationState.resume, h2, Bool.false_eq_true, if_false]
      exact ⟨by simp [h1], rfl, rfl, rfl⟩
  · exact disconnResumedOnce_deliver w e hr

lemma connResumedOnce_deliverAll (w : WaitForConnectedOperation) (es : List ConnWaitEvent)
    (h : connResumedOnce w) : connResumedOnce (w.deliverAll es) := by
  induction es generalizing w with
  | nil => exact h
  | cons e rest ih => exact ih (w.deliver e) (connResumedOnce_deliver w e h)

lemma disconnResumedOnce_deliverAll (w : WaitForDisconnectedOperation)
    (es : List DisconnWaitEvent) (h : disconnResumedOnce w) :
    disconnResumedOnce (w.deliverAll es) := by
  induction es generalizing w with
  | nil => exact h
  | cons e rest ih => exact ih (w.deliver e) (disconnResumedOnce_deliver w e h)

lemma connInv_deliverAll (t : Bool) (w : WaitForConnectedOperation) (es : List ConnWaitEvent)
    (h : connInv t w) : connInv t (w.deliverAll es) := by
  induction es generalizing w with
  | nil => exact h
  | cons e rest ih => exact ih (w.deliver e) (connInv_deliver t w e h)

lemma disconnInv_deliverAll (t : Bool) (w : WaitForDisconnectedOperation)
    (es : List DisconnWaitEvent) (h : disconnInv t w) : disconnInv t (w.deliverAll es) := by
  induction es generalizing w with
  | nil => exact h
  | cons e rest ih => exact ih (w.deliver e) (disconnInv_deliver t w e h)

lemma connInv_deliverAll_trigger (t : Bool) (w : WaitForConnectedOperation)
    (es : List ConnWaitEvent) (h : connInv t w)
    (he : ∃ e ∈ es, connTrigger t e) : connResumedOnce (w.deliverAll es) := by
  induction es generalizing w with
  | nil => exact absurd he (by simp)
  | cons e rest ih =>
      by_cases htrig : connTrigger t e
      · exact connResumedOnce_deliverAll (w.deliver e) rest
          (connInv_deliver_trigger t w e h htrig)
      · obtain ⟨e2, hmem, he2⟩ := he
        rcases List.mem_cons.mp hmem with rfl | hmem2
        · exact absurd he2 htrig
        · exact ih (w.deliver e) (connInv_deliver t w e h) ⟨e2, hmem2, he2⟩

lemma disconnInv_deliverAll_trigger (t : Bool) (w : WaitForDisconnectedOperation)
    (es : List DisconnWaitEvent) (h : disconnInv t w)
    (he : ∃ e ∈ es, disconnTrigger t e) : disconnResumedOnce (w.deliverAll es) := by
  induction es generalizing w with
  | nil => exact absurd he (by simp)
  | cons e rest ih =>
      by_cases htrig : disconnTrigger t e
      · exact disconnResumedOnce_deliverAll (w.deliver e) rest
          (disconnInv_deliver_trigger t w e h htrig)
      · obtain ⟨e2, hmem, he2⟩ := he
        rcases List.mem_cons.mp hmem with rfl | hmem2
        · exact absurd he2 htrig
        · exact ih (w.deliver e) (disconnInv_deliver t w e h) ⟨e2, hmem2, he2⟩

/-- C1: for every suspended wait-operation awaitable (WaitForConnectedOperation
and WaitForDisconnectedOperation), the coroutine is resumed exactly once
regardless of how many candidate trigger events arrive (primary completion
event, timeout firing, or both in the same scheduling tick): the number of
continuation invocations never exceeds one, and once any trigger has
arrived it is exactly one, with every outstanding subscription (event and
timeout) torn down and the operation marked completed. -/
theorem c1_wait_operations_resume_exactly_once
    (w : WaitForConnectedOperation) (es : List ConnWaitEvent)
    (v : WaitForDisconnectedOperation) (fs : List DisconnWaitEvent)
    (hw1 : w.base.resumeCount = 0) (hw2 : w.base.completed = false)
    (hw3 : w.base.connActive = true)
    (hv1 : v.base.resumeCount = 0) (hv2 : v.base.completed = false)
    (hv3 : v.base.connActive = true) :
    ((w.deliverAll es).base.resumeCount ≤ 1
      ∧ ((∃ e ∈ es, connTrigger w.base.timerActive e) → connResumedOnce (w.deliverAll es)))
    ∧ ((v.deliverAll fs).base.resumeCount ≤ 1
      ∧ ((∃ e ∈ fs, disconnTrigger v.base.timerActive e) →
          disconnResumedOnce (v.deliverAll fs))) := by
  have hwInv : connInv w.base.timerActive w := Or.inl ⟨hw1, hw2, hw3, rfl⟩
  have hvInv : disconnInv v.base.timerActive v := Or.inl ⟨hv1, hv2, hv3, rfl⟩
  refine ⟨⟨?_, ?_⟩, ⟨?_, ?_⟩⟩
  · rcases connInv_deliverAll w.base.timerActive w es hwInv with ⟨h1, _⟩ | ⟨h1, _⟩ <;> omega
  · exact connInv_deliverAll_trigger w.base.timerActive w es hwInv
  · rcases disconnInv_deliverAll v.base.timerActive v fs hvInv with ⟨h1, _⟩ | ⟨h1, _⟩ <;> omega
  · exact disconnInv_deliverAll_trigger v.base.timerActive v fs hvInv

/-- Witness for C1: both example operations, suspended with the default
timeout and hit by a primary completion event followed by the timer firing
in the same delivery batch, resume exactly once with full teardown. -/
theorem c1_witness :
    connResumedOnce (connSuspendedExample.deliverAll
        [ConnWaitEvent.stateChanged LocalSocketState.ConnectedState,
         ConnWaitEvent.timerFired])
    ∧ disconnResumedOnce (disconnSuspendedExample.deliverAll
        [DisconnWaitEvent.disconnected, DisconnWaitEvent.timerFired]) := by
  have h := c1_wait_operations_resume_exactly_once
    connSuspendedExample
    [ConnWaitEvent.stateChanged LocalSocketState.ConnectedState, ConnWaitEvent.timerFired]
    disconnSuspendedExample
    [DisconnWaitEvent.disconnected, DisconnWaitEvent.timerFired]
    (by decide) (by decide) (by decide) (by decide) (by decide) (by decide)
  exact ⟨h.1.2 ⟨ConnWaitEvent.stateChanged LocalSocketState.ConnectedState,
                by simp, by simp [connTrigger]⟩,
         h.2.2 ⟨DisconnWaitEvent.disconnected, by simp, by simp [disconnTrigger]⟩⟩

/-- C2: for a suspended WaitForConnectedOperation, a stateChanged
notification reporting Connecting or Unconnected never resumes the coroutine
(the operation stays uncompleted), while a notification reporting Connected
or Closing invokes the continuation immediately. -/
theorem c2_connect_wait_state_change_triggers
    (w : WaitForConnectedOperation) (ns : LocalSocketState)
    (hconn : w.base.connActive = true) (hcomp : w.base.completed = false) :
    ((ns = LocalSocketState.ConnectingState ∨ ns = LocalSocketState.UnconnectedState) →
      (w.deliver (ConnWaitEvent.stateChanged ns)).base.resumeCount = w.base.resumeCount
      ∧ (w.deliver (ConnWaitEvent.stateChanged ns)).base.completed = false)
    ∧ ((ns = LocalSocketState.ConnectedState ∨ ns = LocalSocketState.ClosingState) →
      (w.deliver (ConnWaitEvent.stateChanged ns)).base.resumeCount
        = w.base.resumeCount + 1) := by
  constructor
  · rintro (rfl | rfl) <;>
      simp [WaitForConnectedOperation.deliver, WaitForConnectedOperation.onStateChanged,
        hconn, hcomp]
  · rintro (rfl | rfl) <;>
      simp [WaitForConnectedOperation.deliver, WaitForConnectedOperation.onStateChanged,
        WaitOperationState.resume, hconn, hcomp]

/-- Witness for C2: on the suspended example operation, a Connecting
notification does not resume, a Connected notification does. -/
theorem c2_witness :
    ((connSuspendedExample.deliver
        (ConnWaitEvent.stateChanged LocalSocketState.ConnectingState)).base.resumeCount
      = connSuspendedExample.base.resumeCount)
    ∧ ((connSuspendedExample.deliver
        (ConnWaitEvent.stateChanged LocalSocketState.ConnectedState)).base.resumeCount
      = connSuspendedExample.base.resumeCount + 1) := by
  refine ⟨((c2_connect_wait_state_change_triggers connSuspendedExample
      LocalSocketState.ConnectingState (by decide) (by decide)).1 (Or.inl rfl)).1, ?_⟩
  exact (c2_connect_wait_state_change_triggers connSuspendedExample
      LocalSocketState.ConnectedState (by decide) (by decide)).2 (Or.inl rfl)

/-- C3: for a suspended ReadOperation, either a new-data readyRead
notification or a transition of the device to the unconnected state resumes
the coroutine; whichever fires first invokes the continuation exactly once
and tears down both subscriptions together, and in the unconnected case
with nothing buffered the awaited value is the explicit empty result. A
subsequent event of either kind never resumes again. -/
theorem c3_read_operation_two_trigger_sources
    (r : ReadOperation) (dev : LocalSocket) (newData : List Nat)
    (hdev : r.mDevice = some dev)
    (hdata : r.dataConn = true) (hstate : r.stateConn = true)
    (hcount : r.resumeCount = 0) :
    ((r.deliver (ReadEvent.readyRead newData)).resumeCount = 1
      ∧ (r.deliver (ReadEvent.readyRead newData)).dataConn = false
      ∧ (r.deliver (ReadEvent.readyRead newData)).stateConn = false
      ∧ (r.deliver (ReadEvent.readyRead newData)).completed = true)
    ∧ ((r.deliver (ReadEvent.stateChanged LocalSocketState.UnconnectedState)).resumeCount = 1
      ∧ (r.deliver (ReadEvent.stateChanged LocalSocketState.UnconnectedState)).dataConn = false
      ∧ (r.deliver (ReadEvent.stateChanged LocalSocketState.UnconnectedState)).stateConn = false
      ∧ (r.deliver (ReadEvent.stateChanged LocalSocketState.UnconnectedState)).completed = true
      ∧ (dev.buffer = [] →
          (r.deliver (ReadEvent.stateChanged LocalSocketState.UnconnectedState)).await_resume
            = []))
    ∧ (∀ e2 : ReadEvent,
        ((r.deliver (ReadEvent.readyRead newData)).deliver e2).resumeCount = 1)
    ∧ (∀ e2 : ReadEvent,
        ((r.deliver
            (ReadEvent.stateChanged LocalSocketState.UnconnectedState)).deliver e2).resumeCount
          = 1) := by
  have hready :
      r.deliver (ReadEvent.readyRead newData)
        = ({ r with mDevice := some { dev with buffer := dev.buffer ++ newData } } :
            ReadOperation).finish := by
    simp [ReadOperation.deliver, ReadOperation.applyEvent, hdev, hdata]
  have hstateEv :
      r.deliver (ReadEvent.stateChanged LocalSocketState.UnconnectedState)
        = ({ r with mDevice := some { dev with state := LocalSocketState.UnconnectedState } } :
            ReadOperation).finish := by
    simp [ReadOperation.deliver, ReadOperation.applyEvent, hdev, hstate]
  refine ⟨?_, ?_, ?_, ?_⟩
  · rw [hready]
    simp [ReadOperation.finish, hcount]
  · rw [hstateEv]
    refine ⟨by simp [ReadOperation.finish, hcount], by simp [ReadOperation.finish],
            by simp [ReadOperation.finish], by simp [ReadOperation.finish], ?_⟩
    intro hbuf
    simp [ReadOperation.finish, ReadOperation.await_resume]
    cases r.kind with
    | readAll => simp [runRead, hbuf]
    | readSome maxSize => simp [runRead, hbuf]
    | readLine maxSize =>
        simp only [runRead, hbuf]
        cases Decidable.em (maxSize ≤ 0) with
        | inl hle => simp [hle, takeLine]
        | inr hgt => simp [hgt, takeLine]
  · intro e2
    rw [hready]
    cases e2 with
    | readyRead nd =>
        simp [ReadOperation.deliver, ReadOperation.applyEvent, ReadOperation.finish, hcount]
    | stateChanged ns =>
        simp [ReadOperation.deliver, ReadOperation.applyEvent, ReadOperation.finish, hcount]
  · intro e2
    rw [hstateEv]
    cases e2 with
    | readyRead nd =>
        simp [ReadOperation.deliver, ReadOperation.applyEvent, ReadOperation.finish, hcount]
    | stateChanged ns =>
        simp [ReadOperation.deliver, ReadOperation.applyEvent, ReadOperation.finish, hcount]

/-- Witness for C3: the suspended readAll example, resumed by an
unconnected-state notification with nothing buffered, resumes once, tears
down both subscriptions and yields the empty result. -/
theorem c3_witness :
    ((readSuspendedExample.deliver
        (ReadEvent.stateChanged LocalSocketState.UnconnectedState)).resumeCount = 1)
    ∧ ((readSuspendedExample.deliver
        (ReadEvent.stateChanged LocalSocketState.UnconnectedState)).dataConn = false)
    ∧ ((readSuspendedExample.deliver
        (ReadEvent.stateChanged LocalSocketState.UnconnectedState)).stateConn = false)
    ∧ ((readSuspendedExample.deliver
        (ReadEvent.stateChanged LocalSocketState.UnconnectedState)).await_resume = []) := by
  have h := c3_read_operation_two_trigger_sources readSuspendedExample sockConnectedEmpty []
    (by decide) (by decide) (by decide) (by decide)
  exact ⟨h.2.1.1, h.2.1.2.1, h.2.1.2.2.1, h.2.1.2.2.2.2 (by decide)⟩

/-- C4: WaitForConnectedOperation::await_ready returns true if and only if
the watched socket is invalid (null/destroyed) or its state is already
ConnectedState; in that case the co_await entry performs no suspension —
no action is emitted and the operation (in particular its timer and
subscription state) is left untouched, so a freshly constructed operation
keeps its timer unarmed. -/
theorem c4_wait_for_connected_await_ready
    (w : WaitForConnectedOperation) (socket : Option LocalSocket) (tms : Int) :
    (w.await_ready = true ↔
      (w.mObj = none ∨ ∃ s, w.mObj = some s ∧ s.state = LocalSocketState.ConnectedState))
    ∧ (w.await_ready = true → w.awaitEntry = ([], w))
    ∧ ((WaitForConnectedOperation.mk' socket tms).await_ready = true →
        ((WaitForConnectedOperation.mk' socket tms).awaitEntry).2.base.timerActive = false
        ∧ ((WaitForConnectedOperation.mk' socket tms).awaitEntry).2.base.connActive = false) := by
  have hiff : ∀ v : WaitForConnectedOperation, v.await_ready = true ↔
      (v.mObj = none ∨ ∃ s, v.mObj = some s ∧ s.state = LocalSocketState.ConnectedState) := by
    intro v
    cases hobj : v.mObj with
    | none => simp [WaitForConnectedOperation.await_ready, hobj]
    | some s =>
        simp [WaitForConnectedOperation.await_ready, hobj]
  have hentry : ∀ v : WaitForConnectedOperation, v.await_ready = true →
      v.awaitEntry = ([], v) := by
    intro v hv
    simp [WaitForConnectedOperation.awaitEntry, hv]
  refine ⟨hiff w, hentry w, ?_⟩
  intro hready
  rw [hentry _ hready]
  exact ⟨rfl, rfl⟩

/-- Witness for C4: over an already-connected socket the operation is ready,
the co_await entry emits no action and arms nothing. -/
theorem c4_witness :
    (WaitForConnectedOperation.mk' (some sockConnectedBuf) 30000).awaitEntry
      = ([], WaitForConnectedOperation.mk' (some sockConnectedBuf) 30000)
    ∧ ((WaitForConnectedOperation.mk'
        (some sockConnectedBuf) 30000).awaitEntry).2.base.timerActive = false := by
  have h := c4_wait_for_connected_await_ready
    (WaitForConnectedOperation.mk' (some sockConnectedBuf) 30000) (some sockConnectedBuf) 30000
  exact ⟨h.2.1 (by decide), (h.2.2 (by decide)).1⟩

/-- C5: for every ReadOperation over a valid local socket, await_ready
returns true if and only if data is already available in the device's
buffer (the modelled base ready-check) or the device already reports
UnconnectedState; in the latter case with nothing buffered the awaited
value is the explicit empty result rather than a suspension. -/
theorem c5_read_await_ready_data_or_unconnected
    (r : ReadOperation) (dev : LocalSocket)
    (hdev : r.mDevice = some dev) (hres : r.result = none) :
    (r.await_ready = true ↔
      (0 < dev.buffer.length ∨ dev.state = LocalSocketState.UnconnectedState))
    ∧ (dev.state = LocalSocketState.UnconnectedState → dev.buffer = [] →
        r.await_ready = true ∧ r.await_resume = []) := by
  constructor
  · simp [ReadOperation.await_ready, ReadOperation.baseAwaitReady, hdev]
  · intro hst hbuf
    refine ⟨by simp [ReadOperation.await_ready, ReadOperation.baseAwaitReady, hdev, hst], ?_⟩
    simp only [ReadOperation.await_resume, hres, hdev]
    cases r.kind with
    | readAll => simp [runRead, hbuf]
    | readSome maxSize => simp [runRead, hbuf]
    | readLine maxSize =>
        simp only [runRead, hbuf]
        cases Decidable.em (maxSize ≤ 0) with
        | inl hle => simp [hle, takeLine]
        | inr hgt => simp [hgt, takeLine]

/-- Witness for C5: a readAll operation over an already-unconnected socket
with an empty buffer is ready and yields the empty result. -/
theorem c5_witness :
    readOnUnconnectedExample.await_ready = true
    ∧ readOnUnconnectedExample.await_resume = [] := by
  have h := c5_read_await_ready_data_or_unconnected
    readOnUnconnectedExample sockUnconnectedEmpty (by decide) (by decide)
  exact h.2 (by decide) (by decide)

/-- C6: for both wait-operation awaitables, the timeout timer is armed only
when suspension actually occurs — the co_await entry of a ready operation
emits no action at all — and whenever the armTimer action appears in the
suspension trace it comes strictly after the subscription to the primary
completion event. -/
theorem c6_timer_armed_only_after_primary_subscription
    (w : WaitForConnectedOperation) (v : WaitForDisconnectedOperation) :
    (w.await_ready = true → (w.awaitEntry).1 = [])
    ∧ (SuspendAction.armTimer ∈ (w.awaitEntry).1 →
        w.await_ready = false
        ∧ (w.awaitEntry).1 = [SuspendAction.subscribePrimary, SuspendAction.armTimer]
        ∧ (w.awaitEntry).2.base.connActive = true
        ∧ (w.awaitEntry).2.base.timerActive = true)
    ∧ (v.await_ready = true → (v.awaitEntry).1 = [])
    ∧ (SuspendAction.armTimer ∈ (v.awaitEntry).1 →
        v.await_ready = false
        ∧ (v.awaitEntry).1 = [SuspendAction.subscribePrimary, SuspendAction.armTimer]
        ∧ (v.awaitEntry).2.base.connActive = true
        ∧ (v.awaitEntry).2.base.timerActive = true) := by
  refine ⟨?_, ?_, ?_, ?_⟩
  · intro hready
    simp [WaitForConnectedOperation.awaitEntry, hready]
  · intro hmem
    cases hready : w.await_ready with
    | true =>
        rw [WaitForConnectedOperation.awaitEntry, hready] at hmem
        simp at hmem
    | false =>
        rw [WaitForConnectedOperation.awaitEntry, hready] at hmem ⊢
        simp only [Bool.false_eq_true, if_false] at hmem ⊢
        rw [WaitForConnectedOperation.await_suspend] at hmem ⊢
        simp only [WaitOperationState.startTimeoutTimer] at hmem ⊢
        cases Decidable.em (0 < w.base.timeoutMsecs) with
        | inl hpos => simp [hpos]
        | inr hneg => simp [hneg] at hmem
  · intro hready
    simp [WaitForDisconnectedOperation.awaitEntry, hready]
  · intro hmem
    cases hready : v.await_ready with
    | true =>
        rw [WaitForDisconnectedOperation.awaitEntry, hready] at hmem
        simp at hmem
    | false =>
        rw [WaitForDisconnectedOperation.awaitEntry, hready] at hmem ⊢
        simp only [Bool.false_eq_true, if_false] at hmem ⊢
        rw [WaitForDisconnectedOperation.await_suspend] at hmem ⊢
        simp only [WaitOperationState.startTimeoutTimer] at hmem ⊢
        cases Decidable.em (0 < v.base.timeoutMsecs) with
        | inl hpos => simp [hpos]
        | inr hneg => simp [hneg] at hmem

/-- Witness for C6: on the not-yet-connected example socket with the default
timeout, the suspension trace is exactly subscribe-then-arm, and for an
already-connected socket the ready path emits no action. -/
theorem c6_witness :
    ((qcoroSockConnecting.waitForConnectedDefault).awaitEntry).1
      = [SuspendAction.subscribePrimary, SuspendAction.armTimer]
    ∧ ((WaitForConnectedOperation.mk' (some sockConnectedBuf) 30000).awaitEntry).1 = [] := by
  have h1 := c6_timer_armed_only_after_primary_subscription
    (qcoroSockConnecting.waitForConnectedDefault) (qcoroSockConnecting.waitForDisconnectedDefault)
  have h2 := c6_timer_armed_only_after_primary_subscription
    (WaitForConnectedOperation.mk' (some sockConnectedBuf) 30000)
    (qcoroSockConnecting.waitForDisconnectedDefault)
  exact ⟨(h1.2.1 (by decide)).2.1, h2.1 (by decide)⟩

/-- C7: the wait operations default to a 30000 ms timeout (the default
argument of waitForConnected, waitForDisconnected and of the
WaitForConnectedOperation constructor), and a zero or negative timeout is
valid configuration meaning wait indefinitely: suspension still subscribes
to the primary event but never arms the timer. -/
theorem c7_default_timeout_and_nonpositive_disables
    (self : QCoroLocalSocket) (t : Int) (ht : t ≤ 0) :
    (self.waitForConnectedDefault).base.timeoutMsecs = 30000
    ∧ (self.waitForDisconnectedDefault).base.timeoutMsecs = 30000
    ∧ ((self.waitForConnected t).await_suspend).2.base.timerActive = false
    ∧ ((self.waitForConnected t).await_suspend).2.base.connActive = true
    ∧ ((self.waitForDisconnected t).await_suspend).2.base.timerActive = false
    ∧ ((self.waitForDisconnected t).await_suspend).2.base.connActive = true := by
  have hnot : ¬(0 < t) := by omega
  refine ⟨rfl, rfl, ?_, ?_, ?_, ?_⟩ <;>
    simp [QCoroLocalSocket.waitForConnected, QCoroLocalSocket.waitForDisconnected,
      WaitForConnectedOperation.mk', WaitForDisconnectedOperation.mk',
      WaitForConnectedOperation.await_suspend, WaitForDisconnectedOperation.await_suspend,
      WaitOperationState.startTimeoutTimer, WaitOperationState.init, hnot]

/-- Witness for C7: with timeout 0 the suspended wait-for-connected example
keeps its timer unarmed while its primary subscription is live, and the
default-argument operations carry 30000 ms. -/
theorem c7_witness :
    (qcoroSockConnecting.waitForConnectedDefault).base.timeoutMsecs = 30000
    ∧ ((qcoroSockConnecting.waitForConnected 0).await_suspend).2.base.timerActive = false
    ∧ ((qcoroSockConnecting.waitForConnected 0).await_suspend).2.base.connActive = true := by
  have h := c7_default_timeout_and_nonpositive_disables qcoroSockConnecting 0 (by decide)
  exact ⟨h.1, h.2.2.1, h.2.2.2.1⟩

/-- C8: each connectToServer overload issues the non-blocking connect
request synchronously and immediately returns the wait-for-connected
awaitable: it equals the spec's composition of the underlying
connectToServer request followed by waitForConnected with the default
30000 ms timeout, and the returned awaitable has not subscribed to
anything and has never resumed (no suspension point inside
connectToServer). -/
theorem c8_connect_to_server_is_request_then_wait
    (self : QCoroLocalSocket) (openMode : Nat) (name : String) :
    self.connectToServer openMode = connectThenWaitSpec self none openMode
    ∧ self.connectToServerNamed name openMode = connectThenWaitSpec self (some name) openMode
    ∧ (self.connectToServer openMode).2.base.connActive = false
    ∧ (self.connectToServer openMode).2.base.timerActive = false
    ∧ (self.connectToServer openMode).2.base.resumeCount = 0
    ∧ (self.connectToServerNamed name openMode).2.base.connActive = false
    ∧ (self.connectToServerNamed name openMode).2.base.timerActive = false
    ∧ (self.connectToServerNamed name openMode).2.base.resumeCount = 0 :=
  ⟨rfl, rfl, rfl, rfl, rfl, rfl, rfl, rfl⟩

/-- C9: the chrono overloads construct exactly the awaitable of the int
overloads applied to static_cast<int>(duration.count()): in-range
millisecond counts are preserved, while a count of 2^31 ms (outside the
range of int) is silently wrapped to -2^31 by the cast rather than
rejected, ending up as the constructed awaitable's timeout. -/
theorem c9_chrono_overloads_cast_to_int
    (self : QCoroLocalSocket) (d : Int) :
    self.waitForConnectedChrono d = self.waitForConnected (intCast32 d)
    ∧ self.waitForDisconnectedChrono d = self.waitForDisconnected (intCast32 d)
    ∧ (-(2 ^ 31) ≤ d → d < 2 ^ 31 → intCast32 d = d)
    ∧ intCast32 (2 ^ 31) = -(2 ^ 31)
    ∧ (self.waitForConnectedChrono (2 ^ 31)).base.timeoutMsecs = -(2 ^ 31) := by
  refine ⟨rfl, rfl, ?_, by decide, ?_⟩
  · intro hlo hhi
    unfold intCast32
    omega
  · show intCast32 (2 ^ 31) = -(2 ^ 31)
    decide

/-- Witness for C9: an in-range duration of 1000 ms is preserved by the
cast, while 2^31 ms wraps to -2^31. -/
theorem c9_witness :
    intCast32 1000 = 1000
    ∧ (qcoroSockConnecting.waitForConnectedChrono (2 ^ 31)).base.timeoutMsecs
        = -(2 ^ 31) := by
  have h := c9_chrono_overloads_cast_to_int qcoroSockConnecting 1000
  exact ⟨h.2.2.1 (by decide) (by decide), h.2.2.2.2⟩

/-- C10: both connectToServer overloads always await the connection with
the fixed default timeout of 30000 ms, whatever arguments the caller
passes — the interface offers no timeout parameter for the composite
operation. -/
theorem c10_connect_to_server_fixed_default_timeout
    (self : QCoroLocalSocket) (openMode : Nat) (name : String) :
    (self.connectToServer openMode).2.base.timeoutMsecs = 30000
    ∧ (self.connectToServerNamed name openMode).2.base.timeoutMsecs = 30000 :=
  ⟨rfl, rfl⟩
